import Mathlib

/-!
Shallow embedding of the camera subsystem of the DatasetPicker repository
(`lychee_collector/core/camera_manager.py`): the image-transform pipeline
(`ImageProcessor`), the camera feed (`CameraFeed`), and the camera registry
(`CameraManager`).  Raster frames are modelled as lists of rows of natural
pixel values; the OpenCV primitives `cv2.rotate`, `cv2.flip` and numpy
slicing are modelled by their documented index semantics.  External I/O
(`cv2.VideoCapture`, `ffmpeg`, `system_profiler`) is modelled by explicit
parameters describing the outcome the environment would produce.
-/

namespace DatasetPicker

/-- A raster frame: a list of rows, each row a list of pixel values.
Models a `numpy` image array (height × width). -/
abbrev Frame := List (List Nat)

/-- `frame.shape[0]`: the number of rows. -/
def Frame.height (f : Frame) : Nat := f.length

/-- `frame.shape[1]`: the length of the first row (the width of a
well-formed rectangular array). -/
def Frame.width (f : Frame) : Nat := (f.headD []).length

/-- Pixel access `frame[r][c]` (0 outside the array). -/
def Frame.pixel (f : Frame) (r c : Nat) : Nat := (f.getD r []).getD c 0

/-- Well-formedness of a frame as a rectangular array: every row has the
same length as the first one. -/
def Frame.WF (f : Frame) : Prop := ∀ r ∈ f, r.length = f.width

/-- Build a height × width frame from a pixel-generator function. -/
def mkFrame (h w : Nat) (g : Nat → Nat → Nat) : Frame :=
  (List.range h).map (fun r => (List.range w).map (fun c => g r c))

/-- `cv2.rotate(f, cv2.ROTATE_90_CLOCKWISE)`: output has the input's
dimensions swapped, `out[r][c] = in[h_in - 1 - c][r]`. -/
def rotate90CW (f : Frame) : Frame :=
  mkFrame f.width f.height (fun r c => f.pixel (f.height - 1 - c) r)

/-- `cv2.rotate(f, cv2.ROTATE_180)`: `out[r][c] = in[h - 1 - r][w - 1 - c]`. -/
def rotate180 (f : Frame) : Frame :=
  mkFrame f.height f.width (fun r c => f.pixel (f.height - 1 - r) (f.width - 1 - c))

/-- `cv2.rotate(f, cv2.ROTATE_90_COUNTERCLOCKWISE)`: dimensions swapped,
`out[r][c] = in[c][w_in - 1 - r]`. -/
def rotate90CCW (f : Frame) : Frame :=
  mkFrame f.width f.height (fun r c => f.pixel c (f.width - 1 - r))

/-- `cv2.flip(f, 1)`: horizontal mirror, `out[r][c] = in[r][w - 1 - c]`. -/
def flipH (f : Frame) : Frame :=
  mkFrame f.height f.width (fun r c => f.pixel r (f.width - 1 - c))

/-- `cv2.flip(f, 0)`: vertical mirror, `out[r][c] = in[h - 1 - r][c]`. -/
def flipV (f : Frame) : Frame :=
  mkFrame f.height f.width (fun r c => f.pixel (f.height - 1 - r) c)

/-- `cv2.flip(f, -1)`: both axes, `out[r][c] = in[h - 1 - r][w - 1 - c]`. -/
def flipBoth (f : Frame) : Frame :=
  mkFrame f.height f.width (fun r c => f.pixel (f.height - 1 - r) (f.width - 1 - c))

/-- Numpy slicing `f[y:y+h, x:x+w]` for in-range nonnegative bounds. -/
def cropAt (f : Frame) (x y w h : Nat) : Frame :=
  ((f.drop y).take h).map (fun row => (row.drop x).take w)

/-- `ImageProcessor`: the mutable transform settings
(`camera_manager.py` lines 15-111). -/
structure ImageProcessor where
  rotation_angle : Int
  flip_horizontal : Bool
  flip_vertical : Bool
  crop_region : Option (Int × Int × Int × Int)
deriving DecidableEq, Repr

/-- `ImageProcessor.__init__`: rotation 0, no flips, no crop. -/
def ImageProcessor.init : ImageProcessor :=
  { rotation_angle := 0, flip_horizontal := false, flip_vertical := false,
    crop_region := none }

/-- `ImageProcessor.reset`. -/
def ImageProcessor.reset (_p : ImageProcessor) : ImageProcessor :=
  ImageProcessor.init

/-- `ImageProcessor.set_rotation`: stores `angle % 360`. -/
def ImageProcessor.set_rotation (p : ImageProcessor) (angle : Int) : ImageProcessor :=
  { p with rotation_angle := angle % 360 }

/-- `ImageProcessor.rotate_clockwise`. -/
def ImageProcessor.rotate_clockwise (p : ImageProcessor) : ImageProcessor :=
  { p with rotation_angle := (p.rotation_angle + 90) % 360 }

/-- `ImageProcessor.rotate_counterclockwise`. -/
def ImageProcessor.rotate_counterclockwise (p : ImageProcessor) : ImageProcessor :=
  { p with rotation_angle := (p.rotation_angle - 90) % 360 }

/-- `ImageProcessor.toggle_flip_horizontal`. -/
def ImageProcessor.toggle_flip_horizontal (p : ImageProcessor) : ImageProcessor :=
  { p with flip_horizontal := !p.flip_horizontal }

/-- `ImageProcessor.toggle_flip_vertical`. -/
def ImageProcessor.toggle_flip_vertical (p : ImageProcessor) : ImageProcessor :=
  { p with flip_vertical := !p.flip_vertical }

/-- `ImageProcessor.set_crop_region`. -/
def ImageProcessor.set_crop_region (p : ImageProcessor) (x y w h : Int) : ImageProcessor :=
  { p with crop_region := some (x, y, w, h) }

/-- `ImageProcessor.clear_crop`. -/
def ImageProcessor.clear_crop (p : ImageProcessor) : ImageProcessor :=
  { p with crop_region := none }

/-- The rotation block of `process_frame` (lines 66-72): an `if/elif`
chain on the exact values 90, 180, 270; any other stored angle leaves
the frame untouched. -/
def rotStage (p : ImageProcessor) (f : Frame) : Frame :=
  if p.rotation_angle = 90 then rotate90CW f
  else if p.rotation_angle = 180 then rotate180 f
  else if p.rotation_angle = 270 then rotate90CCW f
  else f

/-- The flip block of `process_frame` (lines 74-80). -/
def flipStage (p : ImageProcessor) (f : Frame) : Frame :=
  if p.flip_horizontal && p.flip_vertical then flipBoth f
  else if p.flip_horizontal then flipH f
  else if p.flip_vertical then flipV f
  else f

/-- Line 88: `x = max(0, min(x, width - 1))`. -/
def clampX (width x : Int) : Int := max 0 (min x (width - 1))

/-- Line 89: `y = max(0, min(y, height - 1))`. -/
def clampY (height y : Int) : Int := max 0 (min y (height - 1))

/-- Line 90: `w = max(1, min(w, width - x))`, with `x` already clamped. -/
def clampW (width x w : Int) : Int := max 1 (min w (width - clampX width x))

/-- Line 91: `h = max(1, min(h, height - y))`, with `y` already clamped. -/
def clampH (height y h : Int) : Int := max 1 (min h (height - clampY height y))

/-- The crop block of `process_frame` (lines 82-93): the stored rectangle
is clamped against the dimensions of the frame at this point of the
pipeline (i.e. after rotation and flips), then applied by slicing.
A stored four-tuple is always truthy in Python, so `if self.crop_region:`
is exactly the `Option` match. -/
def cropStage (p : ImageProcessor) (f : Frame) : Frame :=
  match p.crop_region with
  | none => f
  | some (x, y, w, h) =>
      cropAt f (clampX f.width x).toNat (clampY f.height y).toNat
        (clampW f.width x w).toNat (clampH f.height y h).toNat

/-- The value of `processed` after the rotation and flip blocks, just
before the crop block. -/
def postFrame (p : ImageProcessor) (f : Frame) : Frame :=
  flipStage p (rotStage p f)

/-- The body of `ImageProcessor.process_frame` on a non-null frame:
rotation first, then flips, then crop. -/
def ImageProcessor.applyPipeline (p : ImageProcessor) (f : Frame) : Frame :=
  cropStage p (postFrame p f)

/-- `ImageProcessor.process_frame` (lines 59-95): returns `None` on `None`
input, otherwise applies the pipeline to (a copy of) the frame. -/
def ImageProcessor.process_frame (p : ImageProcessor) (frame : Option Frame) :
    Option Frame :=
  frame.map p.applyPipeline

/-- The behaviour of the device a `cv2.VideoCapture(index, CAP_AVFOUNDATION)`
call yields: whether `isOpened()` is true, whether a subsequent `read()`
succeeds, and the frame it returns when it does.  An exception thrown during
open/configure/read is caught by `connect`'s `try` and produces the same
result as a failed open, so it is folded into `opened := false`. -/
structure Device where
  opened : Bool
  readOk : Bool
  frame : Frame
deriving DecidableEq, Repr

/-- `CameraFeed` (lines 114-133): one camera handle plus state.  The
`frame_lock`-guarded pair lives in `current_frame` / `processed_frame`. -/
structure CameraFeed where
  camera_index : Int
  name : String
  camera : Option Device
  is_active : Bool
  is_connected : Bool
  processor : ImageProcessor
  current_frame : Option Frame
  processed_frame : Option Frame
deriving DecidableEq, Repr

/-- `CameraFeed.__init__`. -/
def CameraFeed.mkFeed (camera_index : Int) (name : String) : CameraFeed :=
  { camera_index := camera_index, name := name, camera := none,
    is_active := false, is_connected := false, processor := ImageProcessor.init,
    current_frame := none, processed_frame := none }

/-- `CameraFeed.connect` (lines 144-176).  `dev` is the behaviour of the
device that `cv2.VideoCapture(self.camera_index, ...)` opens at this call.
The method does not consult `is_connected`: it always re-opens.  On an
opened device it probes one frame; success stores the new handle, sets
`is_connected` and returns `True`.  Every failure path releases the handle
(`camera := none`), falls through to `self.is_connected = False` and
returns `False`. -/
def CameraFeed.connect (feed : CameraFeed) (dev : Device) : CameraFeed × Bool :=
  if dev.opened then
    if dev.readOk then
      ({ feed with camera := some dev, is_connected := true }, true)
    else
      ({ feed with camera := none, is_connected := false }, false)
  else
    ({ feed with camera := none, is_connected := false }, false)

/-- A frame callback: the subscriber may raise (`Except.error`), which the
loop catches around each invocation. -/
abbrev Callback := Frame → Except String Unit

/-- The callback fan-out of `_capture_loop` (lines 217-222): each
invocation is wrapped in its own `try/except`, so both a normal return and
a raised exception continue to the next subscriber.  The result logs, in
order, each callback position together with the frame it was invoked
with. -/
def deliverFrom : List Callback → Nat → Frame → List (Nat × Frame)
  | [], _, _ => []
  | cb :: rest, i, pf =>
      match cb pf with
      | Except.ok _ => (i, pf) :: deliverFrom rest (i + 1) pf
      | Except.error _ => (i, pf) :: deliverFrom rest (i + 1) pf

/-- One notification pass over the subscription list. -/
def deliver (cbs : List Callback) (pf : Frame) : List (Nat × Frame) :=
  deliverFrom cbs 0 pf

/-- The `frame_lock`-guarded pair of `CameraFeed`. -/
structure FrameStore where
  current_frame : Option Frame
  processed_frame : Option Frame
deriving DecidableEq, Repr

/-- One iteration of `_capture_loop` (lines 210-224) given the outcome of
`self.camera.read()` (`none` for a failed read).  On success the raw copy
and the processed frame are stored together under the lock, then the
callbacks are notified; on failure nothing is stored or delivered and the
loop proceeds to its next iteration. -/
def captureCycle (proc : ImageProcessor) (cbs : List Callback)
    (read : Option Frame) (st : FrameStore) : FrameStore × List (Nat × Frame) :=
  match read with
  | none => (st, [])
  | some frame =>
      ({ current_frame := some frame,
         processed_frame := some (proc.applyPipeline frame) },
       deliver cbs (proc.applyPipeline frame))

/-- `_capture_loop` run over a script of read outcomes (one entry per
iteration until the stop flag / device closure ends the `while`).  Returns
the final frame store and the delivery log of every cycle. -/
def captureLoop (proc : ImageProcessor) (cbs : List Callback) :
    List (Option Frame) → FrameStore → FrameStore × List (List (Nat × Frame))
  | [], st => (st, [])
  | read :: rest, st =>
      let step := captureCycle proc cbs read st
      let next := captureLoop proc cbs rest step.1
      (next.1, step.2 :: next.2)

/-- `CameraFeed.get_current_frame` (lines 226-232): under `frame_lock`,
returns a private copy of one of the two stored frames — the processed one
when `processed = true`, the raw one otherwise. -/
def get_current_frame (st : FrameStore) (processed : Bool) : Option Frame :=
  if processed then st.processed_frame else st.current_frame

/-- An atomic event on a feed's `frame_lock`-guarded state: either one
capture-loop iteration that read `f` (the loop holds the lock while it
stores both the raw copy and the processed frame), or one
`get_current_frame` call by a consumer (each call takes the lock once and
returns one of the two frames). -/
inductive FeedEvent where
  | capture (f : Frame)
  | readFrame (processed : Bool)
deriving DecidableEq, Repr

/-- Interleaved execution of capture-loop iterations and consumer reads:
returns the final store and, in order, the value each `readFrame` event
observed. -/
def runFeed (proc : ImageProcessor) :
    List FeedEvent → FrameStore → FrameStore × List (Option Frame)
  | [], st => (st, [])
  | FeedEvent.capture f :: rest, _st =>
      runFeed proc rest
        { current_frame := some f,
          processed_frame := some (proc.applyPipeline f) }
  | FeedEvent.readFrame b :: rest, st =>
      let next := runFeed proc rest st
      (next.1, get_current_frame st b :: next.2)

/-- Python `dict` assignment `m[k] = v` on an association list: replaces
the value in place if the key exists, otherwise appends. -/
def dictSet : List (String × Nat) → String → Nat → List (String × Nat)
  | [], k, v => [(k, v)]
  | (k', v') :: rest, k, v =>
      if k' = k then (k, v) :: rest else (k', v') :: dictSet rest k v

/-- Python `dict.get(k)`. -/
def dictGet : List (String × Nat) → String → Option Nat
  | [], _ => none
  | (k', v') :: rest, k => if k' = k then some v' else dictGet rest k

/-- `CameraManager` state.  Python feeds are heap objects shared by
reference between the registry's `camera_feeds` dict and any caller
holding the feed; the heap is modelled explicitly as a list addressed by
position so the claims can talk about aliased feed objects. -/
structure ManagerState where
  heap : List CameraFeed
  available_cameras : List Int
  camera_feeds : List (String × Nat)
deriving DecidableEq, Repr

/-- `CameraManager.create_camera_feed` (lines 410-421).  `names` is the
result of the `get_camera_names()` query with its `Camera {idx}` fallback
already applied (`camera_names.get(camera_index, f"Camera {camera_index}")`).
A fresh `CameraFeed` object is allocated and bound to `feed_name` —
silently replacing any previous binding, without touching the previously
bound feed object — and its address is returned. -/
def create_camera_feed (st : ManagerState) (camera_index : Int)
    (feed_name : String) (names : Int → String) : ManagerState × Nat :=
  let feed := CameraFeed.mkFeed camera_index (names camera_index)
  let addr := st.heap.length
  ({ st with heap := st.heap ++ [feed],
             camera_feeds := dictSet st.camera_feeds feed_name addr },
   addr)

/-- The label of the appended iPhone entry in
`get_available_camera_options`. -/
def iphoneLabel (idx : Int) : String :=
  "iPhone Camera (Index " ++ toString idx ++ ")"

/-- The label of a speculative entry in `get_available_camera_options`. -/
def tryLabel (idx : Int) : String :=
  "Try Camera " ++ toString idx ++ " (Possible iPhone)"

/-- The final loop of `get_available_camera_options` (lines 449-452):
`for idx in [2, 3, 4, 5]: if idx not in [opt[0] for opt in options]:
options.append((idx, f"Try Camera {idx} (Possible iPhone)"))` — each
append is visible to the membership tests of later iterations. -/
def addTryEntries (options : List (Int × String)) :
    List Int → List (Int × String)
  | [] => options
  | idx :: rest =>
      if idx ∈ options.map Prod.fst then addTryEntries options rest
      else addTryEntries (options ++ [(idx, tryLabel idx)]) rest

/-- `CameraManager.get_available_camera_options` (lines 434-454).
`names` is the `get_camera_names()` result with fallback applied, and
`iphone_idx` is what `detect_iphone_camera()` returned. -/
def get_available_camera_options (st : ManagerState) (names : Int → String)
    (iphone_idx : Option Int) : List (Int × String) :=
  let options := st.available_cameras.map (fun idx => (idx, names idx))
  let options :=
    match iphone_idx with
    | some i =>
        if i ∈ st.available_cameras then options
        else options ++ [(i, iphoneLabel i)]
    | none => options
  addTryEntries options [2, 3, 4, 5]

/-! ### Helper lemmas about frames and the pipeline stages -/

lemma mkFrame_height (h w : Nat) (g : Nat → Nat → Nat) :
    (mkFrame h w g).height = h := by
  simp [mkFrame, Frame.height]

lemma mkFrame_width (h w : Nat) (g : Nat → Nat → Nat) (hh : 1 ≤ h) :
    (mkFrame h w g).width = w := by
  cases h with
  | zero => omega
  | succ k => simp [mkFrame, Frame.width, List.range_succ_eq_map]

lemma mkFrame_WF (h w : Nat) (g : Nat → Nat → Nat) : (mkFrame h w g).WF := by
  intro r hr
  simp only [mkFrame, List.mem_map, List.mem_range] at hr
  obtain ⟨i, hi, hr⟩ := hr
  rw [mkFrame_width h w g (by omega), ← hr]
  simp

lemma replicate_height (n m pix : Nat) :
    Frame.height (List.replicate n (List.replicate m pix)) = n := by
  simp [Frame.height]

lemma replicate_width (n m pix : Nat) (hn : 1 ≤ n) :
    Frame.width (List.replicate n (List.replicate m pix)) = m := by
  cases n with
  | zero => omega
  | succ k => simp [Frame.width, List.replicate_succ]

lemma replicate_WF (n m pix : Nat) :
    Frame.WF (List.replicate n (List.replicate m pix)) := by
  intro r hr
  have hn : 1 ≤ n := by
    cases n with
    | zero => simp at hr
    | succ k => omega
  rw [List.eq_of_mem_replicate hr, replicate_width n m pix hn]
  simp

lemma cropAt_height (f : Frame) (x y w h : Nat) (hyh : y + h ≤ f.height) :
    (cropAt f x y w h).height = h := by
  simp only [Frame.height] at hyh ⊢
  simp [cropAt]
  omega

lemma cropAt_width (f : Frame) (x y w h : Nat) (hwf : f.WF)
    (hy : y < f.height) (hh1 : 1 ≤ h) (hxw : x + w ≤ f.width) :
    (cropAt f x y w h).width = w := by
  obtain ⟨h', rfl⟩ : ∃ h', h = h' + 1 := ⟨h - 1, by omega⟩
  have hy' : y < f.length := hy
  have hdrop : f.drop y = f[y] :: f.drop (y + 1) := List.drop_eq_getElem_cons hy'
  have hrow : f[y].length = f.width := hwf f[y] (List.getElem_mem hy')
  simp only [cropAt, hdrop, List.take_succ_cons, List.map_cons, Frame.width,
    List.headD_cons, List.length_take, List.length_drop]
  omega

lemma rotStage_wf_pos (p : ImageProcessor) (f : Frame) (hwf : f.WF)
    (hh : 1 ≤ f.height) (hw : 1 ≤ f.width) :
    (rotStage p f).WF ∧ 1 ≤ (rotStage p f).height ∧ 1 ≤ (rotStage p f).width := by
  unfold rotStage
  split_ifs
  · exact ⟨mkFrame_WF _ _ _,
      by rw [rotate90CW, mkFrame_height]; exact hw,
      by rw [rotate90CW, mkFrame_width _ _ _ hw]; exact hh⟩
  · exact ⟨mkFrame_WF _ _ _,
      by rw [rotate180, mkFrame_height]; exact hh,
      by rw [rotate180, mkFrame_width _ _ _ hh]; exact hw⟩
  · exact ⟨mkFrame_WF _ _ _,
      by rw [rotate90CCW, mkFrame_height]; exact hw,
      by rw [rotate90CCW, mkFrame_width _ _ _ hw]; exact hh⟩
  · exact ⟨hwf, hh, hw⟩

lemma flipStage_dims (p : ImageProcessor) (f : Frame) (hwf : f.WF)
    (hh : 1 ≤ f.height) :
    (flipStage p f).WF ∧ (flipStage p f).height = f.height ∧
      (flipStage p f).width = f.width := by
  unfold flipStage
  split_ifs
  · exact ⟨mkFrame_WF _ _ _, by rw [flipBoth, mkFrame_height],
      by rw [flipBoth, mkFrame_width _ _ _ hh]⟩
  · exact ⟨mkFrame_WF _ _ _, by rw [flipH, mkFrame_height],
      by rw [flipH, mkFrame_width _ _ _ hh]⟩
  · exact ⟨mkFrame_WF _ _ _, by rw [flipV, mkFrame_height],
      by rw [flipV, mkFrame_width _ _ _ hh]⟩
  · exact ⟨hwf, rfl, rfl⟩

/-! ### Claim theorems -/

/-- C2 (counterexample): the claim "after `set_rotation angle` the stored
rotation angle is a member of {0, 90, 180, 270}" is false at the concrete
input 45: `set_rotation` stores `angle % 360`, so the stored angle is 45. -/
theorem C2_counterexample :
    ¬ ((ImageProcessor.init.set_rotation 45).rotation_angle = 0 ∨
       (ImageProcessor.init.set_rotation 45).rotation_angle = 90 ∨
       (ImageProcessor.init.set_rotation 45).rotation_angle = 180 ∨
       (ImageProcessor.init.set_rotation 45).rotation_angle = 270) := by
  decide

/-- C2 (amended): after `set_rotation angle` the stored rotation angle is
`angle % 360`, hence lies in [0, 360); it is a member of {0, 90, 180, 270}
exactly when the requested angle is a multiple of 90. -/
theorem C2_set_rotation_mod360 (p : ImageProcessor) (angle : Int) :
    (p.set_rotation angle).rotation_angle = angle % 360 ∧
    0 ≤ (p.set_rotation angle).rotation_angle ∧
    (p.set_rotation angle).rotation_angle < 360 ∧
    (((p.set_rotation angle).rotation_angle = 0 ∨
      (p.set_rotation angle).rotation_angle = 90 ∨
      (p.set_rotation angle).rotation_angle = 180 ∨
      (p.set_rotation angle).rotation_angle = 270) ↔ angle % 90 = 0) := by
  simp only [ImageProcessor.set_rotation]
  refine ⟨trivial, ?_, ?_, ?_⟩ <;> omega

/-- C8: processing any non-null frame with the default settings (rotation
0, both flips false, no crop — the state `reset` produces) returns a frame
whose pixel content equals the input's: the pipeline is the identity
transform. -/
theorem C8_default_settings_identity (p : ImageProcessor) (f : Frame) :
    (p.reset).process_frame (some f) = some f ∧
    ImageProcessor.init.process_frame (some f) = some f := by
  constructor <;> rfl

/-- C9: whenever the stored rotation angle is not exactly 90, 180 or 270
(e.g. the 45 produced by `set_rotation 45`, which survives the modulo),
the rotation stage of `process_frame` leaves the frame unchanged, so the
whole pipeline reduces to the flip and crop stages of the unrotated
frame. -/
theorem C9_other_angles_rotate_nothing (p : ImageProcessor) (f : Frame)
    (h90 : p.rotation_angle ≠ 90) (h180 : p.rotation_angle ≠ 180)
    (h270 : p.rotation_angle ≠ 270) :
    rotStage p f = f ∧ p.applyPipeline f = cropStage p (flipStage p f) := by
  have hrot : rotStage p f = f := by
    simp [rotStage, h90, h180, h270]
  exact ⟨hrot, by rw [ImageProcessor.applyPipeline, postFrame, hrot]⟩

/-- Witness for C9 at the concrete angle 45 (stored by `set_rotation 45`)
and a concrete 2×2 frame. -/
theorem C9_witness :
    (ImageProcessor.init.set_rotation 45).rotation_angle ≠ 90 ∧
    (ImageProcessor.init.set_rotation 45).rotation_angle ≠ 180 ∧
    (ImageProcessor.init.set_rotation 45).rotation_angle ≠ 270 ∧
    (rotStage (ImageProcessor.init.set_rotation 45) [[1, 2], [3, 4]] =
        [[1, 2], [3, 4]] ∧
      (ImageProcessor.init.set_rotation 45).applyPipeline [[1, 2], [3, 4]] =
        cropStage (ImageProcessor.init.set_rotation 45)
          (flipStage (ImageProcessor.init.set_rotation 45) [[1, 2], [3, 4]])) :=
  ⟨by decide, by decide, by decide,
   C9_other_angles_rotate_nothing _ _ (by decide) (by decide) (by decide)⟩

/-- C3 (counterexample): the claim "calling `connect` while already
connected is a no-op success returning `true` with handle and state
unchanged" is false: `connect` never consults `is_connected` and always
re-opens the device.  Concretely, for a feed already connected to a live
device, a `connect` call whose fresh open fails returns `false` (not
`true`) and drops the stored handle, and a `connect` call whose fresh open
succeeds replaces the stored handle with the new device. -/
theorem C3_counterexample :
    (let feedC : CameraFeed :=
      { CameraFeed.mkFeed 0 "cam0" with
          camera := some ⟨true, true, [[0]]⟩, is_connected := true }
     feedC.is_connected = true ∧
     (feedC.connect ⟨false, false, [[0]]⟩).2 = false ∧
     (feedC.connect ⟨false, false, [[0]]⟩).1.is_connected = false ∧
     (feedC.connect ⟨true, true, [[7]]⟩).1.camera ≠ feedC.camera) := by
  exact ⟨rfl, rfl, rfl, by decide⟩

/-- C3 (amended): `connect` on an already-connected feed is not a no-op:
it performs the full open-and-probe sequence again.  It returns `true`
exactly when the freshly opened device passes the probe, in which case the
stored handle is replaced by the new device; otherwise it returns `false`
and leaves the feed disconnected with no handle, regardless of the
previous connected state. -/
theorem C3_connect_reopens_when_connected (feed : CameraFeed) (dev : Device)
    (_hconn : feed.is_connected = true) :
    (feed.connect dev).2 = (dev.opened && dev.readOk) ∧
    (feed.connect dev).1.camera =
      (if dev.opened && dev.readOk then some dev else none) ∧
    (feed.connect dev).1.is_connected = (dev.opened && dev.readOk) := by
  rcases dev with ⟨o, r, fr⟩
  cases o <;> cases r <;> simp [CameraFeed.connect]

/-- Witness for C3 (amended): a concrete connected feed re-probed against
a device that opens but fails its probe. -/
theorem C3_witness :
    (let feedC : CameraFeed :=
      { CameraFeed.mkFeed 0 "cam0" with
          camera := some ⟨true, true, [[0]]⟩, is_connected := true }
     feedC.is_connected = true ∧
     ((feedC.connect ⟨true, false, [[0]]⟩).2 = (true && false) ∧
      (feedC.connect ⟨true, false, [[0]]⟩).1.camera =
        (if true && false then some ⟨true, false, [[0]]⟩ else none) ∧
      (feedC.connect ⟨true, false, [[0]]⟩).1.is_connected = (true && false))) :=
  ⟨rfl, C3_connect_reopens_when_connected _ _ rfl⟩

/-- C6: `connect` on a device that opens but whose probe read yields no
frame returns failure, releases the partially-opened handle (the feed
holds no handle afterwards) and leaves the feed disconnected. -/
theorem C6_probe_failure_releases_and_fails (feed : CameraFeed) (dev : Device)
    (hopen : dev.opened = true) (hread : dev.readOk = false) :
    (feed.connect dev).2 = false ∧
    (feed.connect dev).1.camera = none ∧
    (feed.connect dev).1.is_connected = false := by
  simp [CameraFeed.connect, hopen, hread]

/-- Witness for C6 at a concrete feed and device. -/
theorem C6_witness :
    (Device.opened ⟨true, false, [[0]]⟩ = true) ∧
    (Device.readOk ⟨true, false, [[0]]⟩ = false) ∧
    (((CameraFeed.mkFeed 3 "cam").connect ⟨true, false, [[0]]⟩).2 = false ∧
     ((CameraFeed.mkFeed 3 "cam").connect ⟨true, false, [[0]]⟩).1.camera = none ∧
     ((CameraFeed.mkFeed 3 "cam").connect ⟨true, false, [[0]]⟩).1.is_connected = false) :=
  ⟨rfl, rfl, C6_probe_failure_releases_and_fails _ _ rfl rfl⟩

lemma deliverFrom_fst (cbs : List Callback) (i : Nat) (pf : Frame) :
    (deliverFrom cbs i pf).map Prod.fst = List.range' i cbs.length := by
  induction cbs generalizing i with
  | nil => simp [deliverFrom]
  | cons cb rest ih =>
      cases hcb : cb pf <;>
        simp [deliverFrom, hcb, ih, List.range'_succ]

lemma deliverFrom_snd (cbs : List Callback) (i : Nat) (pf : Frame) :
    (deliverFrom cbs i pf).map Prod.snd = List.replicate cbs.length pf := by
  induction cbs generalizing i with
  | nil => simp [deliverFrom]
  | cons cb rest ih =>
      cases hcb : cb pf <;>
        simp [deliverFrom, hcb, ih, List.replicate_succ]

lemma captureLoop_log (proc : ImageProcessor) (cbs : List Callback)
    (reads : List (Option Frame)) (st : FrameStore) :
    (captureLoop proc cbs reads st).2 =
      reads.map (fun read =>
        match read with
        | none => []
        | some f => deliver cbs (proc.applyPipeline f)) := by
  induction reads generalizing st with
  | nil => simp [captureLoop]
  | cons read rest ih =>
      cases read <;> simp [captureLoop, captureCycle, ih]

/-- C4: even when some subscribed callback raises on every invocation,
each capture-loop cycle that reads a frame still invokes every callback —
in subscription order, each exactly once (the invocation log's positions
are `0, …, n-1`) and each with that cycle's processed frame — and the loop
proceeds through all its cycles (one log entry per read).  In particular a
failing subscriber never stops the loop or prevents delivery to a
later-subscribed, well-behaved subscriber. -/
theorem C4_callback_failure_isolated (proc : ImageProcessor)
    (cbs : List Callback) (reads : List (Option Frame)) (st : FrameStore)
    (c : Nat) (f : Frame) (hc : reads[c]? = some (some f)) :
    (captureLoop proc cbs reads st).2.length = reads.length ∧
    (captureLoop proc cbs reads st).2[c]? =
      some (deliver cbs (proc.applyPipeline f)) ∧
    (deliver cbs (proc.applyPipeline f)).map Prod.fst =
      List.range cbs.length ∧
    (deliver cbs (proc.applyPipeline f)).map Prod.snd =
      List.replicate cbs.length (proc.applyPipeline f) := by
  refine ⟨?_, ?_, ?_, ?_⟩
  · rw [captureLoop_log]; simp
  · rw [captureLoop_log, List.getElem?_map, hc]; rfl
  · rw [deliver, deliverFrom_fst, List.range_eq_range']
  · rw [deliver, deliverFrom_snd]

/-- Witness for C4: a subscription list whose first callback raises on
every invocation and whose second is well-behaved, run for 10 consecutive
successful cycles; the 10th cycle (index 9) still delivers the processed
frame to both positions. -/
theorem C4_witness :
    ((List.replicate 10 (some [[5]]) : List (Option Frame))[9]? =
        some (some [[5]])) ∧
    (let cbs : List Callback :=
      [fun _ => Except.error "boom", fun _ => Except.ok ()]
     let reads : List (Option Frame) := List.replicate 10 (some [[5]])
     (captureLoop ImageProcessor.init cbs reads ⟨none, none⟩).2.length =
        reads.length ∧
     (captureLoop ImageProcessor.init cbs reads ⟨none, none⟩).2[9]? =
        some (deliver cbs (ImageProcessor.init.applyPipeline [[5]])) ∧
     (deliver cbs (ImageProcessor.init.applyPipeline [[5]])).map Prod.fst =
        List.range cbs.length ∧
     (deliver cbs (ImageProcessor.init.applyPipeline [[5]])).map Prod.snd =
        List.replicate cbs.length (ImageProcessor.init.applyPipeline [[5]])) :=
  ⟨rfl, C4_callback_failure_isolated ImageProcessor.init
    [fun _ => Except.error "boom", fun _ => Except.ok ()]
    (List.replicate 10 (some [[5]])) ⟨none, none⟩ 9 [[5]] rfl⟩

/-- C7 (counterexample): the claim "a consumer reading both the raw and
the processed frame during active capture never observes a raw/processed
pair from two different capture cycles" is false: `get_current_frame`
returns only one of the two frames per call, each call acquiring the lock
separately, so two consumer reads can straddle a loop update.  Concretely,
after the loop captures the tagged frame `[[0]]`, a consumer reads the raw
frame (observing `[[0]]`), the loop then captures `[[1]]`, and the
consumer reads the processed frame (observing `[[1]]`): the observed
raw/processed pair comes from two different capture cycles. -/
theorem C7_counterexample :
    (runFeed ImageProcessor.init
        [FeedEvent.capture [[0]], FeedEvent.readFrame false,
         FeedEvent.capture [[1]], FeedEvent.readFrame true]
        ⟨none, none⟩).2 = [some [[0]], some [[1]]] ∧
    ([[0]] : Frame) ≠ [[1]] :=
  ⟨rfl, by decide⟩

lemma runFeed_store_inv (proc : ImageProcessor) (events : List FeedEvent)
    (st : FrameStore)
    (h : st.processed_frame = st.current_frame.map proc.applyPipeline) :
    ((runFeed proc events st).1).processed_frame =
      ((runFeed proc events st).1).current_frame.map proc.applyPipeline := by
  induction events generalizing st with
  | nil => simpa [runFeed] using h
  | cons e rest ih =>
      cases e with
      | capture f => exact ih _ (by simp)
      | readFrame b =>
          simp only [runFeed]
          exact ih st h

/-- C7 (amended): the capture loop stores the raw frame and its processed
counterpart of the same capture instant together under one critical
section, so after any interleaving of loop iterations and consumer reads
the *stored* pair is mutually consistent — the stored processed frame is
exactly the pipeline applied to the stored raw frame.  A single
`get_current_frame` call therefore returns a frame from a consistent
stored pair; but because each call returns only one of the two frames,
a consumer needs two separate calls to read both, and those may straddle
a loop update and observe frames from two different capture cycles. -/
theorem C7_stored_pair_consistent (proc : ImageProcessor)
    (events : List FeedEvent) :
    ((runFeed proc events ⟨none, none⟩).1).processed_frame =
      ((runFeed proc events ⟨none, none⟩).1).current_frame.map
        proc.applyPipeline :=
  runFeed_store_inv proc events ⟨none, none⟩ rfl

lemma dictGet_dictSet_same (m : List (String × Nat)) (k : String) (v : Nat) :
    dictGet (dictSet m k v) k = some v := by
  induction m with
  | nil => simp [dictSet, dictGet]
  | cons kv rest ih =>
      by_cases h : kv.1 = k <;>
        simp [dictSet, dictGet, h, ih]

lemma dictGet_dictSet_other (m : List (String × Nat)) (k k' : String)
    (v : Nat) (h : k' ≠ k) :
    dictGet (dictSet m k v) k' = dictGet m k' := by
  have h' : k ≠ k' := fun e => h e.symm
  induction m with
  | nil => simp [dictSet, dictGet, h']
  | cons kv rest ih =>
      by_cases hk : kv.1 = k
      · subst hk; simp [dictSet, dictGet, h']
      · simp [dictSet, dictGet, hk, ih]

/-- C10: when the registry's feed map already binds `feed_name` to the
feed object at address `a`, `create_camera_feed` silently replaces the
binding with a newly constructed feed (disconnected, inactive, no handle,
fresh default processor) and returns it, while every other binding and —
in particular — the previously registered feed object itself are left
entirely unmodified: the old feed is not disconnected, its handle is not
released and its capture state is untouched. -/
theorem C10_create_feed_replaces_binding (st : ManagerState)
    (camera_index : Int) (feed_name : String) (names : Int → String)
    (a : Nat) (_hbind : dictGet st.camera_feeds feed_name = some a)
    (ha : a < st.heap.length) :
    (create_camera_feed st camera_index feed_name names).2 ≠ a ∧
    dictGet (create_camera_feed st camera_index feed_name names).1.camera_feeds
        feed_name =
      some (create_camera_feed st camera_index feed_name names).2 ∧
    (create_camera_feed st camera_index feed_name names).1.heap[
        (create_camera_feed st camera_index feed_name names).2]? =
      some (CameraFeed.mkFeed camera_index (names camera_index)) ∧
    (create_camera_feed st camera_index feed_name names).1.heap[a]? =
      st.heap[a]? ∧
    (∀ k, k ≠ feed_name →
      dictGet (create_camera_feed st camera_index feed_name names).1.camera_feeds
          k =
        dictGet st.camera_feeds k) := by
  refine ⟨by simp [create_camera_feed]; omega, ?_, ?_, ?_, ?_⟩
  · simp [create_camera_feed, dictGet_dictSet_same]
  · simp [create_camera_feed, List.getElem?_concat_length]
  · simp only [create_camera_feed]
    exact List.getElem?_append_left ha
  · intro k hk
    simp only [create_camera_feed]
    exact dictGet_dictSet_other _ _ _ _ hk

/-- Witness for C10: a registry holding one connected, active feed
registered under "cam"; re-creating "cam" returns a fresh feed at a new
address and leaves the old feed object bit-for-bit unchanged. -/
theorem C10_witness :
    (let oldFeed : CameraFeed :=
      { CameraFeed.mkFeed 0 "Camera 0" with
          camera := some ⟨true, true, [[0]]⟩, is_connected := true,
          is_active := true }
     let st : ManagerState := ⟨[oldFeed], [0], [("cam", 0)]⟩
     let names : Int → String := fun idx => "Camera " ++ toString idx
     dictGet st.camera_feeds "cam" = some 0 ∧ 0 < st.heap.length ∧
     ((create_camera_feed st 1 "cam" names).2 ≠ 0 ∧
      dictGet (create_camera_feed st 1 "cam" names).1.camera_feeds "cam" =
        some (create_camera_feed st 1 "cam" names).2 ∧
      (create_camera_feed st 1 "cam" names).1.heap[
          (create_camera_feed st 1 "cam" names).2]? =
        some (CameraFeed.mkFeed 1 (names 1)) ∧
      (create_camera_feed st 1 "cam" names).1.heap[(0 : Nat)]? =
        st.heap[(0 : Nat)]? ∧
      (∀ k, k ≠ "cam" →
        dictGet (create_camera_feed st 1 "cam" names).1.camera_feeds k =
          dictGet st.camera_feeds k))) := by
  refine ⟨rfl, by decide, C10_create_feed_replaces_binding _ _ _ _ 0 rfl (by decide)⟩

lemma addTryEntries_suffix (options : List (Int × String)) (l : List Int) :
    ∃ extra, addTryEntries options l = options ++ extra ∧
      ∀ e ∈ extra, e.1 ∈ l ∧ e.2 = tryLabel e.1 := by
  induction l generalizing options with
  | nil => exact ⟨[], by simp [addTryEntries]⟩
  | cons idx rest ih =>
      by_cases h : idx ∈ options.map Prod.fst
      · obtain ⟨extra, he, hp⟩ := ih options
        refine ⟨extra, by simp [addTryEntries, h, he], fun e hm => ?_⟩
        exact ⟨List.mem_cons_of_mem _ (hp e hm).1, (hp e hm).2⟩
      · obtain ⟨extra, he, hp⟩ := ih (options ++ [(idx, tryLabel idx)])
        refine ⟨(idx, tryLabel idx) :: extra, ?_, fun e hm => ?_⟩
        · simp [addTryEntries, h, he]
        · rcases List.mem_cons.mp hm with rfl | hm'
          · exact ⟨List.mem_cons_self _ _, rfl⟩
          · exact ⟨List.mem_cons_of_mem _ (hp e hm').1, (hp e hm').2⟩

lemma addTryEntries_covers (options : List (Int × String)) (l : List Int) :
    ∀ j ∈ l, j ∈ (addTryEntries options l).map Prod.fst := by
  induction l generalizing options with
  | nil => simp
  | cons idx rest ih =>
      intro j hj
      by_cases h : idx ∈ options.map Prod.fst
      · rcases List.mem_cons.mp hj with rfl | hj'
        · obtain ⟨extra, he, -⟩ := addTryEntries_suffix options rest
          rw [addTryEntries, if_pos h, he, List.map_append]
          exact List.mem_append_left _ h
        · rw [addTryEntries, if_pos h]
          exact ih options j hj'
      · rcases List.mem_cons.mp hj with rfl | hj'
        · obtain ⟨extra, he, -⟩ :=
            addTryEntries_suffix (options ++ [(j, tryLabel j)]) rest
          rw [addTryEntries, if_neg h, he, List.map_append]
          exact List.mem_append_left _ (by simp)
        · rw [addTryEntries, if_neg h]
          exact ih _ j hj'

/-- C5 (counterexample): the claim "the enumeration output is exactly the
ordered (index, name) pairs of the discovered indices plus at most one
iPhone entry; no other entries are ever appended" is false at the concrete
registry state with discovered cameras `[0]` and no iPhone found: the
output additionally contains four speculative "Try Camera idx (Possible
iPhone)" entries for the indices 2, 3, 4, 5. -/
theorem C5_counterexample :
    get_available_camera_options ⟨[], [0], []⟩
        (fun idx => "Camera " ++ toString idx) none =
      [(0, "Camera 0"), (2, tryLabel 2), (3, tryLabel 3), (4, tryLabel 4),
       (5, tryLabel 5)] := by
  rfl

/-- C5 (amended): the enumeration output is the ordered (index,
display-name) pairs of the discovered indices, followed only by (a) at
most one specially-identified iPhone entry, appended when the iPhone probe
found an index not already in the discovered list, and (b) one speculative
"Try Camera idx (Possible iPhone)" entry for each index in {2, 3, 4, 5}
not already present at the time it is checked; afterwards every index of
{2, 3, 4, 5} occurs in the output. -/
theorem C5_options_structure (st : ManagerState) (names : Int → String)
    (iphone_idx : Option Int) :
    (get_available_camera_options st names iphone_idx).take
        st.available_cameras.length =
      st.available_cameras.map (fun idx => (idx, names idx)) ∧
    (∀ e ∈ (get_available_camera_options st names iphone_idx).drop
        st.available_cameras.length,
      (∃ i, iphone_idx = some i ∧ i ∉ st.available_cameras ∧
        e = (i, iphoneLabel i)) ∨
      (e.1 ∈ ([2, 3, 4, 5] : List Int) ∧ e.2 = tryLabel e.1)) ∧
    (∀ j ∈ ([2, 3, 4, 5] : List Int),
      j ∈ (get_available_camera_options st names iphone_idx).map Prod.fst) := by
  have hbase :
      ∃ tail, get_available_camera_options st names iphone_idx =
          st.available_cameras.map (fun idx => (idx, names idx)) ++ tail ∧
        ∀ e ∈ tail,
          (∃ i, iphone_idx = some i ∧ i ∉ st.available_cameras ∧
            e = (i, iphoneLabel i)) ∨
          (e.1 ∈ ([2, 3, 4, 5] : List Int) ∧ e.2 = tryLabel e.1) := by
    unfold get_available_camera_options
    cases iphone_idx with
    | none =>
        obtain ⟨extra, he, hp⟩ :=
          addTryEntries_suffix
            (st.available_cameras.map (fun idx => (idx, names idx))) [2, 3, 4, 5]
        exact ⟨extra, he, fun e hm => Or.inr (hp e hm)⟩
    | some i =>
        by_cases hi : i ∈ st.available_cameras
        · obtain ⟨extra, he, hp⟩ :=
            addTryEntries_suffix
              (st.available_cameras.map (fun idx => (idx, names idx)))
              [2, 3, 4, 5]
          refine ⟨extra, ?_, fun e hm => Or.inr (hp e hm)⟩
          simpa [hi] using he
        · obtain ⟨extra, he, hp⟩ :=
            addTryEntries_suffix
              (st.available_cameras.map (fun idx => (idx, names idx)) ++
                [(i, iphoneLabel i)]) [2, 3, 4, 5]
          refine ⟨(i, iphoneLabel i) :: extra, ?_, fun e hm => ?_⟩
          · simp only [hi, if_neg, ite_false]
            rw [he, List.append_assoc]
            rfl
          · rcases List.mem_cons.mp hm with rfl | hm'
            · exact Or.inl ⟨i, rfl, hi, rfl⟩
            · exact Or.inr (hp e hm')
  obtain ⟨tail, he, hp⟩ := hbase
  have hlen : st.available_cameras.length =
      (st.available_cameras.map (fun idx => (idx, names idx))).length := by
    simp
  refine ⟨?_, ?_, ?_⟩
  · rw [he, hlen, List.take_left]
  · intro e hm
    rw [he, hlen, List.drop_left] at hm
    exact hp e hm
  · intro j hj
    unfold get_available_camera_options
    cases iphone_idx with
    | none => exact addTryEntries_covers _ _ j hj
    | some i =>
        by_cases hi : i ∈ st.available_cameras <;>
          simp only [hi, ite_true, ite_false, if_pos, if_neg] <;>
          exact addTryEntries_covers _ _ j hj

lemma cropStage_some (p : ImageProcessor) (g : Frame) (x y w h : Int)
    (hc : p.crop_region = some (x, y, w, h)) :
    cropStage p g =
      cropAt g (clampX g.width x).toNat (clampY g.height y).toNat
        (clampW g.width x w).toNat (clampH g.height y h).toNat := by
  simp [cropStage, hc]

/-- C1: for every well-formed nonempty frame and every stored crop
rectangle, `process_frame` applies the crop last, clamped against the
post-rotation, post-flip frame's dimensions: x is clamped into
[0, width-1], y into [0, height-1], w so that x+w ≤ width and h so that
y+h ≤ height, each floored at 1; the processed frame's dimensions are the
clamped w and h.  The flip stage never changes the dimensions, and for
rotation 90° the clamping dimensions are the input's swapped
(width := input height, height := input width) — the situation of the
1920×1080 example, exercised in the witness. -/
theorem C1_crop_clamped_post_rotation (p : ImageProcessor) (f : Frame)
    (x y w h : Int) (hcrop : p.crop_region = some (x, y, w, h))
    (hwf : f.WF) (hh : 1 ≤ f.height) (hw : 1 ≤ f.width) :
    p.applyPipeline f =
      cropAt (postFrame p f)
        (clampX (postFrame p f).width x).toNat
        (clampY (postFrame p f).height y).toNat
        (clampW (postFrame p f).width x w).toNat
        (clampH (postFrame p f).height y h).toNat ∧
    0 ≤ clampX (postFrame p f).width x ∧
    clampX (postFrame p f).width x ≤ ((postFrame p f).width : Int) - 1 ∧
    0 ≤ clampY (postFrame p f).height y ∧
    clampY (postFrame p f).height y ≤ ((postFrame p f).height : Int) - 1 ∧
    1 ≤ clampW (postFrame p f).width x w ∧
    clampX (postFrame p f).width x + clampW (postFrame p f).width x w ≤
      ((postFrame p f).width : Int) ∧
    1 ≤ clampH (postFrame p f).height y h ∧
    clampY (postFrame p f).height y + clampH (postFrame p f).height y h ≤
      ((postFrame p f).height : Int) ∧
    (p.applyPipeline f).height = (clampH (postFrame p f).height y h).toNat ∧
    (p.applyPipeline f).width = (clampW (postFrame p f).width x w).toNat ∧
    (postFrame p f).height = (rotStage p f).height ∧
    (postFrame p f).width = (rotStage p f).width ∧
    (p.rotation_angle = 90 →
      (rotStage p f).height = f.width ∧ (rotStage p f).width = f.height) := by
  obtain ⟨hwf1, hh1, hw1⟩ := rotStage_wf_pos p f hwf hh hw
  obtain ⟨hwf2, hh2, hw2⟩ := flipStage_dims p (rotStage p f) hwf1 hh1
  have hwfg : (postFrame p f).WF := hwf2
  have hhg : 1 ≤ (postFrame p f).height := by
    show 1 ≤ (flipStage p (rotStage p f)).height
    omega
  have hwg : 1 ≤ (postFrame p f).width := by
    show 1 ≤ (flipStage p (rotStage p f)).width
    omega
  have hWi : (1 : Int) ≤ ((postFrame p f).width : Int) := by exact_mod_cast hwg
  have hHi : (1 : Int) ≤ ((postFrame p f).height : Int) := by exact_mod_cast hhg
  set W : Int := ((postFrame p f).width : Int) with hWdef
  set H : Int := ((postFrame p f).height : Int) with hHdef
  have bx : 0 ≤ clampX W x ∧ clampX W x ≤ W - 1 := by
    unfold clampX; omega
  have by' : 0 ≤ clampY H y ∧ clampY H y ≤ H - 1 := by
    unfold clampY; omega
  have bw : 1 ≤ clampW W x w ∧ clampX W x + clampW W x w ≤ W := by
    unfold clampW clampX; omega
  have bh : 1 ≤ clampH H y h ∧ clampY H y + clampH H y h ≤ H := by
    unfold clampH clampY; omega
  have heq : p.applyPipeline f =
      cropAt (postFrame p f) (clampX W x).toNat (clampY H y).toNat
        (clampW W x w).toNat (clampH H y h).toNat :=
    cropStage_some p (postFrame p f) x y w h hcrop
  have hheight : (p.applyPipeline f).height = (clampH H y h).toNat := by
    rw [heq]
    exact cropAt_height _ _ _ _ _ (by omega)
  have hwidth : (p.applyPipeline f).width = (clampW W x w).toNat := by
    rw [heq]
    exact cropAt_width _ _ _ _ _ hwfg (by omega) (by omega) (by omega)
  have h90 : p.rotation_angle = 90 →
      (rotStage p f).height = f.width ∧ (rotStage p f).width = f.height := by
    intro hr
    have hrot : rotStage p f = rotate90CW f := by simp [rotStage, hr]
    rw [hrot]
    exact ⟨by rw [rotate90CW, mkFrame_height],
      by rw [rotate90CW]; exact mkFrame_width _ _ _ hw⟩
  exact ⟨heq, bx.1, bx.2, by'.1, by'.2, bw.1, bw.2, bh.1, bh.2,
    hheight, hwidth, hh2, hw2, h90⟩

/-- Witness for C1: the spec's concrete example.  A 1920×1080 input frame
(1080 rows of 1920 pixels) with rotation 90° and crop request
(x=2000, y=0, w=100, h=100): the crop is evaluated against the rotated
frame, whose width is 1080 and height 1920, so x clamps to 1079
(dimension − 1), w shrinks to 1, and the processed frame is 1 pixel wide
and 100 pixels high. -/
theorem C1_witness :
    (let p : ImageProcessor :=
      (ImageProcessor.init.set_rotation 90).set_crop_region 2000 0 100 100
     let f : Frame := List.replicate 1080 (List.replicate 1920 0)
     (p.crop_region = some (2000, 0, 100, 100) ∧ f.WF ∧
      1 ≤ f.height ∧ 1 ≤ f.width) ∧
     ((postFrame p f).width = 1080 ∧ (postFrame p f).height = 1920 ∧
      clampX 1080 2000 = 1079 ∧ clampW 1080 2000 100 = 1) ∧
     ((p.applyPipeline f).width = 1 ∧ (p.applyPipeline f).height = 100)) := by
  intro p f
  have hr : p.rotation_angle = 90 := by decide
  have hfh : f.height = 1080 := replicate_height 1080 1920 0
  have hfw : f.width = 1920 := replicate_width 1080 1920 0 (by norm_num)
  obtain ⟨heq, bx1, bx2, by1, by2, bw1, bw2, bh1, bh2, hhgt, hwid, hph', hpw', h90⟩ :=
    C1_crop_clamped_post_rotation p f 2000 0 100 100 rfl
      (replicate_WF 1080 1920 0) (by rw [hfh]; norm_num) (by rw [hfw]; norm_num)
  have hpw : (postFrame p f).width = 1080 := by
    rw [hpw', (h90 hr).2, hfh]
  have hph : (postFrame p f).height = 1920 := by
    rw [hph', (h90 hr).1, hfw]
  refine ⟨⟨rfl, replicate_WF 1080 1920 0, by rw [hfh]; norm_num,
      by rw [hfw]; norm_num⟩,
    ⟨hpw, hph, by decide, by decide⟩, ?_, ?_⟩
  · rw [hwid, hpw]; decide
  · rw [hhgt, hph]; decide

end DatasetPicker
